import Mathlib

/-!
Verification of the HTML text render pipe (`src/rendering/text/html/HTMLTextPipe.ts`).

The pipe owns one GPU text record per renderable uid.  A record caches a
reference-counted texture obtained from the text texture provider
(`renderer.htmlText.getManagedTexture` / `decreaseReferenceCount`), a pooled
batchable sprite, a content+style fingerprint (`currentKey`), and two flags
(`textureNeedsUploading`, `generatingTexture`).

We give a shallow embedding as a labelled transition system over a single
record (plus ghost logs for reference-count events, issued requests, pool
traffic, logged errors), and a small map-level model of whole-pipe
`destroy()`.  The asynchronous `_updateGpuText` is split at its single await
point into a synchronous prefix (`updateGpuTextSync`, lines 128-153) and a
completion continuation (`completeSuccess`, lines 155-166); a trace is a list
of operations, where `Op.complete ok` delivers the oldest pending request
with outcome `ok`.
-/

namespace HTMLText

/-- Content+style fingerprint keys.  The source uses strings with the
sentinel value `'--'` assigned at record creation; real keys are produced by
`TextView._getKey()` and never equal the sentinel. -/
inductive TextKey where
  | sentinel
  | real (text styleKey : String)
deriving DecidableEq, Repr

/-- Textures: `Texture.EMPTY` or a managed texture obtained from the text
texture provider for a given key. -/
inductive Tex where
  | empty
  | managed (k : TextKey)
deriving DecidableEq, Repr

/-- Ghost log entries for the provider reference count: a successful
`getManagedTexture` resolution increments the count for its key; a
`decreaseReferenceCount(key)` call decrements it. -/
inductive RefEvent where
  | inc (k : TextKey)
  | dec (k : TextKey)
deriving DecidableEq, Repr

/-- Modelled from the spec: the result of the external pure utility
`updateQuadBounds(bounds, anchor, texture, padding)` is abstracted as the
tuple of its inputs; `initZero` is the literal `[0, 1, 0, 0]` zero-area
bounds assigned at record creation. -/
inductive QuadBounds where
  | initZero
  | quad (anchor : Int × Int) (tex : Tex) (padding : Int)
deriving DecidableEq, Repr

/-- A pooled batchable sprite: `sprite` records whether it is wired to the
renderable (line 188), `texture` and `bounds` are the fields the pipe
writes. -/
structure BatchableSprite where
  sprite : Bool
  texture : Tex
  bounds : QuadBounds
deriving DecidableEq, Repr

/-- The per-renderable GPU text record (the `_gpuText` map entry shape,
lines 27-33 of the source). -/
structure GpuText where
  textureNeedsUploading : Bool
  generatingTexture : Bool
  texture : Tex
  currentKey : TextKey
  batchableSprite : BatchableSprite
deriving DecidableEq, Repr

/-- Modelled from the spec: the external renderable view, carrying text
content, a style fingerprint, padding, anchor, and the mutation flag
`_didUpdate` set whenever text/style mutates. -/
structure TextView where
  text : String
  styleKey : String
  padding : Int
  anchor : Int × Int
  didUpdate : Bool
deriving DecidableEq, Repr

/-- Modelled from the spec: `TextView._getKey()` collapses content and style
into a stable fingerprint; it never produces the sentinel value. -/
def TextView.getKey (v : TextView) : TextKey :=
  TextKey.real v.text v.styleKey

/-- State of the pipe restricted to one renderable uid, with ghost fields.
`obj` is the heap record object (allocated by `_initGpuText`, still
reachable from the async closure after destruction); `inMap` says whether
`_gpuText[uid]` currently holds the record (destruction sets the slot to
`null`, i.e. `inMap = false` while `obj` stays allocated).  `pending` is the
queue of outstanding `getManagedTexture` requests, `issued` the append-only
log of all requests ever made, `refEvents` the reference-count event log,
`poolGets`/`poolReturns` count `BigPool.get`/`BigPool.return` calls,
`listenerOn` records the `destroyed` listener registration, and
`errorsLogged` counts errors swallowed by the `.catch` handler. -/
structure PipeState where
  obj : Option GpuText
  inMap : Bool
  view : TextView
  pending : List TextKey
  issued : List TextKey
  refEvents : List RefEvent
  poolGets : Nat
  poolReturns : Nat
  listenerOn : Bool
  errorsLogged : Nat
deriving DecidableEq, Repr

/-- The record allocated by `_initGpuText` (lines 180-190): empty
placeholder texture, sentinel key, a freshly pooled batchable sprite wired
to the renderable with an empty texture and `[0, 1, 0, 0]` bounds, both
flags clear. -/
def initialGpuText : GpuText :=
  { textureNeedsUploading := false
    generatingTexture := false
    texture := Tex.empty
    currentKey := TextKey.sentinel
    batchableSprite :=
      { sprite := true, texture := Tex.empty, bounds := QuadBounds.initZero } }

/-- First-touch initialization `_initGpuText` (lines 174-201): allocate the
record, store it in the map, register the destruction listener. -/
def initGpuText (s : PipeState) : PipeState :=
  { s with
      obj := some initialGpuText
      inMap := true
      poolGets := s.poolGets + 1
      listenerOn := true }

/-- `_getGpuText` (lines 169-172): return the mapped record, or lazily
initialize one when the slot is absent or null (both are falsy in the
source's `||`). -/
def getGpuText (s : PipeState) : GpuText × PipeState :=
  if s.inMap then (s.obj.getD initialGpuText, s)
  else (initialGpuText, initGpuText s)

/-- `validateRenderable` (lines 40-62): consume `textureNeedsUploading`, or
report a key mismatch; otherwise the renderable is valid. -/
def validateRenderable (s : PipeState) : Bool × PipeState :=
  let gs := getGpuText s
  let g := gs.1
  let s1 := gs.2
  let newKey := s1.view.getKey
  if g.textureNeedsUploading then
    (true, { s1 with obj := some { g with textureNeedsUploading := false } })
  else if g.currentKey ≠ newKey then (true, s1)
  else (false, s1)

/-- Synchronous prefix of the async `_updateGpuText` (lines 128-153), up to
and including issuing the `getManagedTexture` request at the await point:
clear the mutation flag, bail out if a regeneration is already in flight,
otherwise release the reference count of the old key, mark the record as
generating, optimistically store the new key, and issue the request. -/
def updateGpuTextSync (s0 : PipeState) : PipeState :=
  let s := { s0 with view := { s0.view with didUpdate := false } }
  let gs := getGpuText s
  let g := gs.1
  let s1 := gs.2
  if g.generatingTexture then s1
  else
    let newKey := s1.view.getKey
    { s1 with
        obj := some { g with generatingTexture := true, currentKey := newKey }
        refEvents := s1.refEvents ++ [RefEvent.dec g.currentKey]
        issued := s1.issued ++ [newKey]
        pending := s1.pending ++ [newKey] }

/-- Continuation of `_updateGpuText` after the await resolves successfully
(lines 155-166): the provider increment for the delivered key, the texture
swap on the captured record object and its batchable sprite, flag updates,
`view.onUpdate()` (which re-marks the view as updated), and the bounds
recomputation from the freshly swapped texture.  The source has no guard:
these writes happen even if the record was destroyed meanwhile. -/
def completeSuccess (k : TextKey) (s : PipeState) : PipeState :=
  let s1 :=
    { s with
        obj := s.obj.map fun (g : GpuText) =>
          { g with
              texture := Tex.managed k
              batchableSprite := { g.batchableSprite with texture := Tex.managed k }
              generatingTexture := false
              textureNeedsUploading := true }
        refEvents := s.refEvents ++ [RefEvent.inc k]
        view := { s.view with didUpdate := true } }
  { s1 with
      obj := s1.obj.map fun (g : GpuText) =>
        { g with batchableSprite :=
            { g.batchableSprite with bounds :=
                (QuadBounds.quad s1.view.anchor g.batchableSprite.texture s1.view.padding) } } }

/-- `_updateText` (lines 107-126): if the key changed, kick off the
asynchronous regeneration (its rejection is absorbed by the attached
`.catch`); then unconditionally clear the mutation flag and recompute the
quad bounds from the batchable sprite's currently assigned texture. -/
def updateText (s : PipeState) : PipeState :=
  let newKey := s.view.getKey
  let gs := getGpuText s
  let g := gs.1
  let s1 := gs.2
  let s2 := if g.currentKey ≠ newKey then updateGpuTextSync s1 else s1
  let s3 := { s2 with view := { s2.view with didUpdate := false } }
  { s3 with
      obj := s3.obj.map fun (g2 : GpuText) =>
        { g2 with batchableSprite :=
            { g2.batchableSprite with bounds :=
                (QuadBounds.quad s3.view.anchor g2.batchableSprite.texture s3.view.padding) } } }

/-- `addRenderable` (lines 64-76): lazy init, run the update step when the
view reports an unconsumed mutation, submit to the batcher (no record
state effect). -/
def addRenderable (s : PipeState) : PipeState :=
  let gs := getGpuText s
  let s1 := gs.2
  if s1.view.didUpdate then updateText s1 else s1

/-- `updateRenderable` (lines 78-89): same update step as `addRenderable`,
submitting via the batcher's in-place update path. -/
def updateRenderable (s : PipeState) : PipeState :=
  let gs := getGpuText s
  let s1 := gs.2
  if s1.view.didUpdate then updateText s1 else s1

/-- `destroyRenderable` / `_destroyRenderableById` (lines 91-105): read the
map slot, release the reference count of the current key, return the
batchable sprite to the pool, null the slot.  When the slot is already
null (or absent) the very first field access `gpuText.currentKey` raises a
TypeError, modelled as `Except.error`; no mutation happens in that case. -/
def destroyRenderableE (s : PipeState) : Except String PipeState :=
  if s.inMap then
    match s.obj with
    | none => Except.error "TypeError: Cannot read properties of null (reading currentKey)"
    | some g =>
        Except.ok
          { s with
              refEvents := s.refEvents ++ [RefEvent.dec g.currentKey]
              poolReturns := s.poolReturns + 1
              inMap := false }
  else Except.error "TypeError: Cannot read properties of null (reading currentKey)"

/-- Operations of the transition system: external content/style mutation,
the four public pipe entry points restricted to one renderable, and
delivery of the oldest outstanding request with outcome `ok`. -/
inductive Op where
  | setText (t styleKey : String)
  | validate
  | add
  | update
  | destroyR
  | complete (ok : Bool)
deriving DecidableEq, Repr

/-- One transition.  A throwing `destroyR` leaves the state unchanged (the
exception aborts `_destroyRenderableById` before any mutation); delivering
a rejection pops the request, increments the swallowed-error counter (the
`.catch` at lines 115-118 logs it) and — faithfully to the source — does
not reset `generatingTexture`. -/
def step (s : PipeState) (op : Op) : PipeState :=
  match op with
  | Op.setText t styleKey =>
      { s with view := { s.view with text := t, styleKey := styleKey, didUpdate := true } }
  | Op.validate => (validateRenderable s).2
  | Op.add => addRenderable s
  | Op.update => updateRenderable s
  | Op.destroyR =>
      match destroyRenderableE s with
      | Except.ok s1 => s1
      | Except.error _ => s
  | Op.complete ok =>
      match s.pending with
      | [] => s
      | k :: rest =>
          if ok then completeSuccess k { s with pending := rest }
          else { s with pending := rest, errorsLogged := s.errorsLogged + 1 }

/-- Run a trace of operations. -/
def runPipe (s : PipeState) (ops : List Op) : PipeState :=
  ops.foldl step s

/-- Initial view: no content, mutation flag clear. -/
def initView : TextView :=
  { text := "", styleKey := "", padding := 0, anchor := (0, 0), didUpdate := false }

/-- Initial pipe state for a given view: no record, empty logs. -/
def initState (v : TextView) : PipeState :=
  { obj := none
    inMap := false
    view := v
    pending := []
    issued := []
    refEvents := []
    poolGets := 0
    poolReturns := 0
    listenerOn := false
    errorsLogged := 0 }

/-- Net provider reference count for a key derived from the event log. -/
def netCount (k : TextKey) : List RefEvent → Int
  | [] => 0
  | RefEvent.inc k1 :: es => (if k1 = k then (1 : Int) else 0) + netCount k es
  | RefEvent.dec k1 :: es => (if k1 = k then (-1 : Int) else 0) + netCount k es

/-- The reference count a key ought to have on behalf of this record: one
exactly when the record is live in the map, not mid-regeneration, and holds
that key. -/
def expected (s : PipeState) (k : TextKey) : Int :=
  match s.obj with
  | none => 0
  | some g =>
      if s.inMap = true ∧ g.generatingTexture = false ∧ g.currentKey = k then 1 else 0

/-- A step is balanced-safe when rejections never happen and destruction
only happens while no request is outstanding. -/
def safeOpB (s : PipeState) (op : Op) : Bool :=
  match op with
  | Op.complete ok => ok
  | Op.destroyR => s.pending.isEmpty
  | _ => true

/-- A trace is balanced-safe when every step along it is. -/
def safeRun : PipeState → List Op → Bool
  | _, [] => true
  | s, op :: ops => safeOpB s op && safeRun (step s op) ops

/-- A trace that never destroys the record. -/
def noDestroy (ops : List Op) : Bool :=
  ops.all fun op => op ≠ Op.destroyR

/-! ### Map-level model of whole-pipe `destroy()`

`destroy()` (lines 203-212) iterates `for (const i in this._gpuText)` — which
enumerates every assigned key, including slots that `_destroyRenderableById`
has already set to `null` — and calls `_destroyRenderableById(i)` on each.
We model the map as an association list from uid to `Option GpuText`
(`none` is a `null` slot left behind by an individual destruction). -/

/-- Body of `_destroyRenderableById` applied to one map slot during
`destroy()`: on a live slot it releases the reference count of the slot's
current key (returning the event) and returns the sprite to the pool; on a
`null` slot the access `gpuText.currentKey` throws. -/
def destroySlot : Option GpuText → Except String RefEvent
  | some g => Except.ok (RefEvent.dec g.currentKey)
  | none => Except.error "TypeError: Cannot read properties of null (reading currentKey)"

/-- Whole-pipe `destroy()` over the uid map: destroy every enumerated slot
in order, stopping with the thrown TypeError if a slot is `null`. -/
def pipeDestroy : List (Nat × Option GpuText) → Except String (List RefEvent)
  | [] => Except.ok []
  | (_, slot) :: rest =>
      match destroySlot slot with
      | Except.ok ev => (pipeDestroy rest).map fun evs => ev :: evs
      | Except.error e => Except.error e

/-- All non-sentinel keys have net reference count zero. -/
def zeroed (es : List RefEvent) : Prop :=
  ∀ k, k ≠ TextKey.sentinel → netCount k es = 0

/-- One net reference is held exactly for the key `ck`; every other
non-sentinel key is balanced. -/
def singled (es : List RefEvent) (ck : TextKey) : Prop :=
  ∀ k, k ≠ TextKey.sentinel → netCount k es = if ck = k then 1 else 0

/-- The state invariant maintained along balanced-safe traces: the event log
balances out to zero for every non-sentinel key, except that a live,
non-regenerating record holds exactly one reference for its current key;
while a regeneration is in flight the record is in the map, exactly that
request is pending under the optimistically stored key, and the old
reference has already been released. -/
def Inv (s : PipeState) : Prop :=
  (s.obj = none → s.inMap = false ∧ s.pending = [] ∧ zeroed s.refEvents) ∧
  (∀ g, s.obj = some g →
    (g.generatingTexture = true →
        s.inMap = true ∧ s.pending = [g.currentKey] ∧
        g.currentKey ≠ TextKey.sentinel ∧ zeroed s.refEvents) ∧
    (g.generatingTexture = false →
        s.pending = [] ∧
        (s.inMap = true → singled s.refEvents g.currentKey) ∧
        (s.inMap = false → zeroed s.refEvents)))

/-- Invariant for traces that never destroy the record: at most one request
is outstanding, none while the record is idle, and map membership mirrors
allocation. -/
def Inv2 (s : PipeState) : Prop :=
  s.inMap = s.obj.isSome ∧
  (s.obj = none → s.pending = []) ∧
  (∀ g, s.obj = some g →
    (g.generatingTexture = false → s.pending = []) ∧ s.pending.length ≤ 1)

/-- A concrete view whose record has gone through one full successful
regeneration: used to instantiate theorems with hypotheses. -/
def stableState : PipeState :=
  runPipe (initState initView) [Op.setText "a" "s", Op.add, Op.complete true]

/-- The record held by `stableState`: current key `a:s`, managed texture
swapped in, upload flag still set. -/
def stableRecord : GpuText :=
  { textureNeedsUploading := true
    generatingTexture := false
    texture := Tex.managed (TextKey.real "a" "s")
    currentKey := TextKey.real "a" "s"
    batchableSprite :=
      { sprite := true
        texture := Tex.managed (TextKey.real "a" "s")
        bounds := QuadBounds.quad (0, 0) (Tex.managed (TextKey.real "a" "s")) 0 } }

/-- A concrete state with a regeneration in flight (request for `a:s`
pending, `generatingTexture` set). -/
def inflightState : PipeState :=
  runPipe (initState initView) [Op.setText "a" "s", Op.add]

/-- The record held by `inflightState`: optimistic key `a:s`, still showing
the empty placeholder texture. -/
def inflightRecord : GpuText :=
  { textureNeedsUploading := false
    generatingTexture := true
    texture := Tex.empty
    currentKey := TextKey.real "a" "s"
    batchableSprite :=
      { sprite := true
        texture := Tex.empty
        bounds := QuadBounds.quad (0, 0) Tex.empty 0 } }

/-! ### Behaviour equations for the operations -/

@[simp]
theorem getKey_eta (v : TextView) (p : Int) (a : Int × Int) (b : Bool) :
    TextView.getKey ⟨v.text, v.styleKey, p, a, b⟩ = v.getKey := rfl

theorem getGpuText_of_inMap (s : PipeState) (g : GpuText)
    (h1 : s.inMap = true) (h2 : s.obj = some g) : getGpuText s = (g, s) := by
  simp [getGpuText, h1, h2]

theorem getGpuText_of_fresh (s : PipeState) (h1 : s.inMap = false) :
    getGpuText s = (initialGpuText, initGpuText s) := by
  simp [getGpuText, h1]

theorem updateGpuTextSync_of_generating (s : PipeState) (g : GpuText)
    (h1 : s.inMap = true) (h2 : s.obj = some g) (h3 : g.generatingTexture = true) :
    updateGpuTextSync s = { s with view := { s.view with didUpdate := false } } := by
  simp [updateGpuTextSync, getGpuText, h1, h2, h3]

theorem updateGpuTextSync_of_idle (s : PipeState) (g : GpuText)
    (h1 : s.inMap = true) (h2 : s.obj = some g) (h3 : g.generatingTexture = false) :
    updateGpuTextSync s =
      { s with
          view := { s.view with didUpdate := false }
          obj := some { g with generatingTexture := true, currentKey := s.view.getKey }
          refEvents := s.refEvents ++ [RefEvent.dec g.currentKey]
          issued := s.issued ++ [s.view.getKey]
          pending := s.pending ++ [s.view.getKey] } := by
  simp [updateGpuTextSync, getGpuText, TextView.getKey, h1, h2, h3]

theorem updateText_of_sameKey (s : PipeState) (g : GpuText)
    (h1 : s.inMap = true) (h2 : s.obj = some g) (h3 : g.currentKey = s.view.getKey) :
    updateText s =
      { s with
          view := { s.view with didUpdate := false }
          obj := some { g with batchableSprite :=
            { g.batchableSprite with bounds :=
                (QuadBounds.quad s.view.anchor g.batchableSprite.texture s.view.padding) } } } := by
  simp [updateText, getGpuText, h1, h2, h3]

theorem updateText_of_generating (s : PipeState) (g : GpuText)
    (h1 : s.inMap = true) (h2 : s.obj = some g)
    (h3 : g.currentKey ≠ s.view.getKey) (h4 : g.generatingTexture = true) :
    updateText s =
      { s with
          view := { s.view with didUpdate := false }
          obj := some { g with batchableSprite :=
            { g.batchableSprite with bounds :=
                (QuadBounds.quad s.view.anchor g.batchableSprite.texture s.view.padding) } } } := by
  simp [updateText, getGpuText, updateGpuTextSync, h1, h2, h3, h4]

theorem updateText_of_newKey (s : PipeState) (g : GpuText)
    (h1 : s.inMap = true) (h2 : s.obj = some g)
    (h3 : g.currentKey ≠ s.view.getKey) (h4 : g.generatingTexture = false) :
    updateText s =
      { s with
          view := { s.view with didUpdate := false }
          obj := some
            { g with
                generatingTexture := true
                currentKey := s.view.getKey
                batchableSprite :=
                  { g.batchableSprite with bounds :=
                      (QuadBounds.quad s.view.anchor g.batchableSprite.texture s.view.padding) } }
          refEvents := s.refEvents ++ [RefEvent.dec g.currentKey]
          issued := s.issued ++ [s.view.getKey]
          pending := s.pending ++ [s.view.getKey] } := by
  simp [updateText, getGpuText, updateGpuTextSync, h1, h2, h3, h4]

theorem addRenderable_of_inMap (s : PipeState) (g : GpuText)
    (h1 : s.inMap = true) (h2 : s.obj = some g) :
    addRenderable s = if s.view.didUpdate then updateText s else s := by
  simp [addRenderable, getGpuText, h1, h2]

theorem updateRenderable_of_inMap (s : PipeState) (g : GpuText)
    (h1 : s.inMap = true) (h2 : s.obj = some g) :
    updateRenderable s = if s.view.didUpdate then updateText s else s := by
  simp [updateRenderable, getGpuText, h1, h2]

theorem addRenderable_of_fresh (s : PipeState) (h1 : s.inMap = false) :
    addRenderable s =
      if s.view.didUpdate then updateText (initGpuText s) else initGpuText s := by
  simp [addRenderable, getGpuText, initGpuText, h1]

theorem updateRenderable_of_fresh (s : PipeState) (h1 : s.inMap = false) :
    updateRenderable s =
      if s.view.didUpdate then updateText (initGpuText s) else initGpuText s := by
  simp [updateRenderable, getGpuText, initGpuText, h1]

theorem validateRenderable_of_inMap (s : PipeState) (g : GpuText)
    (h1 : s.inMap = true) (h2 : s.obj = some g) :
    validateRenderable s =
      if g.textureNeedsUploading then
        (true, { s with obj := some { g with textureNeedsUploading := false } })
      else if g.currentKey ≠ s.view.getKey then (true, s)
      else (false, s) := by
  simp [validateRenderable, getGpuText, h1, h2]

theorem validateRenderable_of_fresh (s : PipeState) (h1 : s.inMap = false) :
    validateRenderable s = (true, initGpuText s) := by
  simp [validateRenderable, getGpuText, initGpuText, initialGpuText, TextView.getKey, h1]

theorem completeSuccess_of_obj (s : PipeState) (g : GpuText) (k : TextKey)
    (h2 : s.obj = some g) :
    completeSuccess k s =
      { s with
          obj := some
            { g with
                texture := Tex.managed k
                generatingTexture := false
                textureNeedsUploading := true
                batchableSprite :=
                  { g.batchableSprite with
                      texture := Tex.managed k
                      bounds := (QuadBounds.quad s.view.anchor (Tex.managed k) s.view.padding) } }
          refEvents := s.refEvents ++ [RefEvent.inc k]
          view := { s.view with didUpdate := true } } := by
  simp [completeSuccess, h2]

theorem destroyRenderableE_of_live (s : PipeState) (g : GpuText)
    (h1 : s.inMap = true) (h2 : s.obj = some g) :
    destroyRenderableE s =
      Except.ok
        { s with
            refEvents := s.refEvents ++ [RefEvent.dec g.currentKey]
            poolReturns := s.poolReturns + 1
            inMap := false } := by
  simp [destroyRenderableE, h1, h2]

theorem destroyRenderableE_of_dead (s : PipeState) (h1 : s.inMap = false) :
    destroyRenderableE s =
      Except.error "TypeError: Cannot read properties of null (reading currentKey)" := by
  simp [destroyRenderableE, h1]

/-! ### Reference-count bookkeeping -/

theorem netCount_append (k : TextKey) (es fs : List RefEvent) :
    netCount k (es ++ fs) = netCount k es + netCount k fs := by
  induction es with
  | nil => simp [netCount]
  | cons e es ih => cases e <;> simp [netCount, ih] <;> ring

theorem netCount_dec (k k1 : TextKey) (es : List RefEvent) :
    netCount k (es ++ [RefEvent.dec k1]) =
      netCount k es + (if k1 = k then (-1 : Int) else 0) := by
  rw [netCount_append]; simp [netCount]

theorem netCount_inc (k k1 : TextKey) (es : List RefEvent) :
    netCount k (es ++ [RefEvent.inc k1]) =
      netCount k es + (if k1 = k then (1 : Int) else 0) := by
  rw [netCount_append]; simp [netCount]

theorem zeroed_nil : zeroed [] := by
  intro k _; simp [netCount]

theorem zeroed_dec_sentinel (es : List RefEvent) (h : zeroed es) :
    zeroed (es ++ [RefEvent.dec TextKey.sentinel]) := by
  intro k hk
  rw [netCount_dec, h k hk, if_neg (fun hs => hk hs.symm)]
  ring

theorem singled_dec_self (es : List RefEvent) (ck : TextKey) (h : singled es ck) :
    zeroed (es ++ [RefEvent.dec ck]) := by
  intro k hk
  rw [netCount_dec, h k hk]
  by_cases hck : ck = k <;> simp [hck]

theorem singled_of_zeroed_inc (es : List RefEvent) (ck : TextKey) (h : zeroed es) :
    singled (es ++ [RefEvent.inc ck]) ck := by
  intro k hk
  rw [netCount_inc, h k hk]
  by_cases hck : ck = k <;> simp [hck]

theorem singled_sentinel_of_zeroed (es : List RefEvent) (h : zeroed es) :
    singled es TextKey.sentinel := by
  intro k hk
  rw [h k hk, if_neg (fun hs => hk hs.symm)]

theorem getKey_ne_sentinel (v : TextView) : v.getKey ≠ TextKey.sentinel := by
  simp [TextView.getKey]

theorem inv_initState (v : TextView) : Inv (initState v) := by
  constructor
  · intro _; exact ⟨rfl, rfl, zeroed_nil⟩
  · intro g hg; simp [initState] at hg

theorem inv_obj_of_inMap (s : PipeState) (h : Inv s) (hm : s.inMap = true) :
    ∃ g, s.obj = some g := by
  cases hobj : s.obj with
  | none => exact absurd ((h.1 hobj).1) (by simp [hm])
  | some g => exact ⟨g, rfl⟩

theorem inv_quiet_of_not_inMap (s : PipeState) (h : Inv s) (hm : s.inMap = false) :
    s.pending = [] ∧ zeroed s.refEvents := by
  obtain ⟨h0, hsome⟩ := h
  cases hobj : s.obj with
  | none => exact ⟨(h0 hobj).2.1, (h0 hobj).2.2⟩
  | some g =>
    rcases hsome g hobj with ⟨ha, hb⟩
    cases hgen : g.generatingTexture with
    | true => exact absurd ((ha hgen).1) (by simp [hm])
    | false => exact ⟨(hb hgen).1, (hb hgen).2.2 hm⟩

theorem inv_initGpuText (s : PipeState) (hm : s.inMap = false) (h : Inv s) :
    Inv (initGpuText s) := by
  obtain ⟨hp, hz⟩ := inv_quiet_of_not_inMap s h hm
  constructor
  · intro hnone; simp [initGpuText] at hnone
  · intro g2 hg2
    simp [initGpuText] at hg2
    subst hg2
    refine ⟨?_, ?_⟩
    · intro hgen; simp [initialGpuText] at hgen
    · intro _
      refine ⟨by simpa [initGpuText] using hp, fun _ => ?_, fun _ => hz⟩
      simpa [initGpuText, initialGpuText] using singled_sentinel_of_zeroed s.refEvents hz

theorem inv_set_tnu (s : PipeState) (g : GpuText) (b : Bool)
    (hobj : s.obj = some g) (h : Inv s) :
    Inv { s with obj := some { g with textureNeedsUploading := b } } := by
  obtain ⟨_, hsome⟩ := h
  rcases hsome g hobj with ⟨ha, hb⟩
  constructor
  · intro hnone; simp at hnone
  · intro g2 hg2
    simp at hg2
    subst hg2
    exact ⟨fun hgen => ha hgen, fun hgen => hb hgen⟩

theorem inv_cosmetic (s : PipeState) (g : GpuText) (bs : BatchableSprite) (v : TextView)
    (hobj : s.obj = some g) (h : Inv s) :
    Inv { s with view := v, obj := some { g with batchableSprite := bs } } := by
  obtain ⟨_, hsome⟩ := h
  rcases hsome g hobj with ⟨ha, hb⟩
  constructor
  · intro hnone; simp at hnone
  · intro g2 hg2
    simp at hg2
    subst hg2
    exact ⟨fun hgen => ha hgen, fun hgen => hb hgen⟩

theorem inv_updateText (s : PipeState) (h1 : s.inMap = true) (h : Inv s) :
    Inv (updateText s) := by
  obtain ⟨g, hobj⟩ := inv_obj_of_inMap s h h1
  by_cases hkey : g.currentKey = s.view.getKey
  · rw [updateText_of_sameKey s g h1 hobj hkey]
    exact inv_cosmetic s g _ _ hobj h
  · cases hgen : g.generatingTexture with
    | true =>
      rw [updateText_of_generating s g h1 hobj hkey hgen]
      exact inv_cosmetic s g _ _ hobj h
    | false =>
      rw [updateText_of_newKey s g h1 hobj hkey hgen]
      obtain ⟨_, hsome⟩ := h
      rcases hsome g hobj with ⟨_, hb⟩
      rcases hb hgen with ⟨hpend, hsing, _⟩
      constructor
      · intro hnone; simp at hnone
      · intro g2 hg2
        simp at hg2
        subst hg2
        refine ⟨fun _ => ⟨h1, ?_, ?_, ?_⟩, ?_⟩
        · simp [hpend]
        · exact getKey_ne_sentinel s.view
        · exact singled_dec_self s.refEvents g.currentKey (hsing h1)
        · intro hgen2; simp at hgen2

theorem inv_validate (s : PipeState) (h : Inv s) : Inv (validateRenderable s).2 := by
  cases hm : s.inMap with
  | false =>
    rw [validateRenderable_of_fresh s hm]
    exact inv_initGpuText s hm h
  | true =>
    obtain ⟨g, hobj⟩ := inv_obj_of_inMap s h hm
    rw [validateRenderable_of_inMap s g hm hobj]
    by_cases h1 : g.textureNeedsUploading
    · simp only [if_pos h1]
      exact inv_set_tnu s g false hobj h
    · simp only [if_neg h1]
      by_cases h2 : g.currentKey ≠ s.view.getKey <;> simp [h2] <;> exact h

theorem inv_addRenderable (s : PipeState) (h : Inv s) : Inv (addRenderable s) := by
  cases hm : s.inMap with
  | false =>
    rw [addRenderable_of_fresh s hm]
    have h2 := inv_initGpuText s hm h
    cases hd : s.view.didUpdate <;> simp [hd]
    · exact h2
    · exact inv_updateText (initGpuText s) rfl h2
  | true =>
    obtain ⟨g, hobj⟩ := inv_obj_of_inMap s h hm
    rw [addRenderable_of_inMap s g hm hobj]
    cases hd : s.view.didUpdate <;> simp [hd]
    · exact h
    · exact inv_updateText s hm h

theorem inv_updateRenderable (s : PipeState) (h : Inv s) : Inv (updateRenderable s) := by
  cases hm : s.inMap with
  | false =>
    rw [updateRenderable_of_fresh s hm]
    have h2 := inv_initGpuText s hm h
    cases hd : s.view.didUpdate <;> simp [hd]
    · exact h2
    · exact inv_updateText (initGpuText s) rfl h2
  | true =>
    obtain ⟨g, hobj⟩ := inv_obj_of_inMap s h hm
    rw [updateRenderable_of_inMap s g hm hobj]
    cases hd : s.view.didUpdate <;> simp [hd]
    · exact h
    · exact inv_updateText s hm h

theorem inv_destroy_safe (s : PipeState) (hp : s.pending = []) (h : Inv s) :
    Inv (step s Op.destroyR) := by
  cases hm : s.inMap with
  | false => simpa [step, destroyRenderableE_of_dead s hm] using h
  | true =>
    obtain ⟨g, hobj⟩ := inv_obj_of_inMap s h hm
    obtain ⟨_, hsome⟩ := h
    rcases hsome g hobj with ⟨ha, hb⟩
    have hgen : g.generatingTexture = false := by
      cases hgen : g.generatingTexture with
      | true => rw [(ha hgen).2.1] at hp; simp at hp
      | false => rfl
    simp only [step, destroyRenderableE_of_live s g hm hobj]
    constructor
    · intro hnone; simp [hobj] at hnone
    · intro g2 hg2
      simp only [hobj, Option.some.injEq] at hg2
      subst hg2
      refine ⟨fun hgen2 => absurd hgen2 (by simp [hgen]), fun _ => ⟨hp, ?_, fun _ => ?_⟩⟩
      · intro hm2; simp at hm2
      · exact singled_dec_self s.refEvents _ ((hb hgen).2.1 hm)

theorem inv_complete_true (s : PipeState) (k : TextKey) (rest : List TextKey)
    (hp : s.pending = k :: rest) (h : Inv s) :
    Inv (completeSuccess k { s with pending := rest }) := by
  obtain ⟨h0, hsome⟩ := h
  cases hobj : s.obj with
  | none => rw [(h0 hobj).2.1] at hp; simp at hp
  | some g =>
    rcases hsome g hobj with ⟨ha, hb⟩
    cases hgen : g.generatingTexture with
    | false => rw [(hb hgen).1] at hp; simp at hp
    | true =>
      rcases ha hgen with ⟨hm, hpend, _, hz⟩
      rw [hpend] at hp
      have hk : k = g.currentKey := (List.cons.injEq _ _ _ _ ▸ hp).1.symm
      have hrest : rest = [] := ((List.cons.injEq _ _ _ _ ▸ hp).2).symm
      have hrw := completeSuccess_of_obj
        ⟨some g, s.inMap, s.view, rest, s.issued, s.refEvents,
          s.poolGets, s.poolReturns, s.listenerOn, s.errorsLogged⟩ g k rfl
      rw [hrw]
      constructor
      · intro hnone; simp at hnone
      · intro g2 hg2
        simp only [Option.some.injEq] at hg2
        subst hg2
        refine ⟨fun hgen2 => ?_, fun _ => ⟨by simp [hrest], fun _ => ?_, fun hm2 => ?_⟩⟩
        · simp at hgen2
        · simpa [hk] using singled_of_zeroed_inc s.refEvents k hz
        · rw [hm] at hm2; simp at hm2

theorem inv_step_safe (s : PipeState) (op : Op) (h : Inv s)
    (hsafe : safeOpB s op = true) : Inv (step s op) := by
  cases op with
  | setText t sk => exact h
  | validate => exact inv_validate s h
  | add => exact inv_addRenderable s h
  | update => exact inv_updateRenderable s h
  | destroyR =>
      have hp : s.pending = [] := by simpa [safeOpB, List.isEmpty_iff] using hsafe
      exact inv_destroy_safe s hp h
  | complete ok =>
      have hok : ok = true := by simpa [safeOpB] using hsafe
      subst hok
      cases hp : s.pending with
      | nil => simpa [step, hp] using h
      | cons k rest =>
          simpa [step, hp] using inv_complete_true s k rest hp h

theorem runPipe_nil (s : PipeState) : runPipe s [] = s := rfl

theorem runPipe_cons (s : PipeState) (op : Op) (ops : List Op) :
    runPipe s (op :: ops) = runPipe (step s op) ops := rfl

theorem inv_safe_run (ops : List Op) :
    ∀ s : PipeState, Inv s → safeRun s ops = true → Inv (runPipe s ops) := by
  induction ops with
  | nil => intro s h _; exact h
  | cons op ops ih =>
      intro s h hsafe
      rw [safeRun, Bool.and_eq_true] at hsafe
      rw [runPipe_cons]
      exact ih (step s op) (inv_step_safe s op h hsafe.1) hsafe.2

theorem safeRun_take (ops : List Op) :
    ∀ (s : PipeState) (n : Nat), safeRun s ops = true → safeRun s (ops.take n) = true := by
  induction ops with
  | nil => intro s n _; simp [safeRun]
  | cons op ops ih =>
      intro s n hsafe
      rw [safeRun, Bool.and_eq_true] at hsafe
      cases n with
      | zero => rfl
      | succ n =>
          rw [List.take_succ_cons, safeRun, Bool.and_eq_true]
          exact ⟨hsafe.1, ih (step s op) n hsafe.2⟩

theorem netCount_eq_expected_of_inv (s : PipeState) (hInv : Inv s)
    (k : TextKey) (hk : k ≠ TextKey.sentinel) :
    netCount k s.refEvents = expected s k := by
  obtain ⟨h0, hsome⟩ := hInv
  cases hobj : s.obj with
  | none => rw [(h0 hobj).2.2 k hk]; simp [expected, hobj]
  | some g =>
    rcases hsome g hobj with ⟨ha, hb⟩
    cases hgen : g.generatingTexture with
    | true =>
        rw [(ha hgen).2.2.2 k hk]
        simp [expected, hobj, hgen]
    | false =>
        cases hm : s.inMap with
        | true =>
            rw [(hb hgen).2.1 hm k hk]
            simp [expected, hobj, hgen, hm]
        | false =>
            rw [(hb hgen).2.2 hm k hk]
            simp [expected, hobj, hm]

theorem inv2_initState (v : TextView) : Inv2 (initState v) := by
  refine ⟨rfl, fun _ => rfl, fun g hg => ?_⟩
  simp [initState] at hg

theorem inv2_obj_of_inMap (s : PipeState) (h : Inv2 s) (hm : s.inMap = true) :
    ∃ g, s.obj = some g := by
  cases hobj : s.obj with
  | none => have h1 := h.1; rw [hobj, hm] at h1; simp at h1
  | some g => exact ⟨g, rfl⟩

theorem inv2_empty_of_not_inMap (s : PipeState) (h : Inv2 s) (hm : s.inMap = false) :
    s.obj = none ∧ s.pending = [] := by
  cases hobj : s.obj with
  | none => exact ⟨rfl, h.2.1 hobj⟩
  | some g => have h1 := h.1; rw [hobj, hm] at h1; simp at h1

theorem inv2_initGpuText (s : PipeState) (hm : s.inMap = false) (h : Inv2 s) :
    Inv2 (initGpuText s) := by
  obtain ⟨_, hp⟩ := inv2_empty_of_not_inMap s h hm
  refine ⟨rfl, fun hnone => by simp [initGpuText] at hnone, fun g hg => ?_⟩
  simp [initGpuText] at hg
  subst hg
  exact ⟨fun _ => hp, by simp [initGpuText, hp]⟩

theorem inv2_updateText (s : PipeState) (h1 : s.inMap = true) (h : Inv2 s) :
    Inv2 (updateText s) := by
  obtain ⟨g, hobj⟩ := inv2_obj_of_inMap s h h1
  rcases (h.2.2 g hobj) with ⟨hidle, hlen⟩
  by_cases hkey : g.currentKey = s.view.getKey
  · rw [updateText_of_sameKey s g h1 hobj hkey]
    refine ⟨by simp [h.1, hobj], by simp, fun g2 hg2 => ?_⟩
    simp at hg2
    subst hg2
    exact ⟨fun hgen => hidle hgen, hlen⟩
  · cases hgen : g.generatingTexture with
    | true =>
      rw [updateText_of_generating s g h1 hobj hkey hgen]
      refine ⟨by simp [h.1, hobj], by simp, fun g2 hg2 => ?_⟩
      simp at hg2
      subst hg2
      exact ⟨fun hgen2 => hidle hgen2, hlen⟩
    | false =>
      rw [updateText_of_newKey s g h1 hobj hkey hgen]
      refine ⟨by simp [h.1, hobj], by simp, fun g2 hg2 => ?_⟩
      simp at hg2
      subst hg2
      refine ⟨fun hgen2 => by simp at hgen2, ?_⟩
      simp [hidle hgen]

theorem inv2_step (s : PipeState) (op : Op) (h : Inv2 s) (hnd : op ≠ Op.destroyR) :
    Inv2 (step s op) := by
  cases op with
  | setText t sk => exact h
  | destroyR => exact absurd rfl hnd
  | validate =>
      show Inv2 (validateRenderable s).2
      cases hm : s.inMap with
      | false => rw [validateRenderable_of_fresh s hm]; exact inv2_initGpuText s hm h
      | true =>
          obtain ⟨g, hobj⟩ := inv2_obj_of_inMap s h hm
          rcases (h.2.2 g hobj) with ⟨hidle, hlen⟩
          rw [validateRenderable_of_inMap s g hm hobj]
          by_cases htnu : g.textureNeedsUploading
          · simp only [if_pos htnu]
            refine ⟨by simp [h.1, hobj], by simp, fun g2 hg2 => ?_⟩
            simp at hg2
            subst hg2
            exact ⟨fun hgen => hidle hgen, hlen⟩
          · by_cases h2 : g.currentKey ≠ s.view.getKey <;> simp [htnu, h2] <;> exact h
  | add =>
      show Inv2 (addRenderable s)
      cases hm : s.inMap with
      | false =>
          rw [addRenderable_of_fresh s hm]
          have h2 := inv2_initGpuText s hm h
          cases hd : s.view.didUpdate <;> simp [hd]
          · exact h2
          · exact inv2_updateText (initGpuText s) rfl h2
      | true =>
          obtain ⟨g, hobj⟩ := inv2_obj_of_inMap s h hm
          rw [addRenderable_of_inMap s g hm hobj]
          cases hd : s.view.didUpdate <;> simp [hd]
          · exact h
          · exact inv2_updateText s hm h
  | update =>
      show Inv2 (updateRenderable s)
      cases hm : s.inMap with
      | false =>
          rw [updateRenderable_of_fresh s hm]
          have h2 := inv2_initGpuText s hm h
          cases hd : s.view.didUpdate <;> simp [hd]
          · exact h2
          · exact inv2_updateText (initGpuText s) rfl h2
      | true =>
          obtain ⟨g, hobj⟩ := inv2_obj_of_inMap s h hm
          rw [updateRenderable_of_inMap s g hm hobj]
          cases hd : s.view.didUpdate <;> simp [hd]
          · exact h
          · exact inv2_updateText s hm h
  | complete ok =>
      cases hp : s.pending with
      | nil => simpa [step, hp] using h
      | cons k rest =>
          cases hobj : s.obj with
          | none => rw [h.2.1 hobj] at hp; simp at hp
          | some g =>
              rcases (h.2.2 g hobj) with ⟨hidle, hlen⟩
              have hrest : rest = [] := by
                rw [hp] at hlen; simpa using hlen
              cases ok with
              | false =>
                  have hred :
                      Inv2 { s with pending := rest, errorsLogged := s.errorsLogged + 1 } := by
                    refine ⟨by simp [h.1], by simp [hobj], fun g2 hg2 => ?_⟩
                    replace hg2 : s.obj = some g2 := hg2
                    rw [hobj, Option.some.injEq] at hg2
                    subst hg2
                    refine ⟨fun hgen => ?_, by simp [hrest]⟩
                    rw [hidle hgen] at hp; simp at hp
                  simpa [step, hp] using hred
              | true =>
                  have hrw := completeSuccess_of_obj
                    ⟨some g, s.inMap, s.view, rest, s.issued, s.refEvents,
                      s.poolGets, s.poolReturns, s.listenerOn, s.errorsLogged⟩ g k rfl
                  have hred : Inv2 (completeSuccess k { s with pending := rest }) := by
                    rw [hobj, hrw]
                    refine ⟨by simp [h.1, hobj], by simp, fun g2 hg2 => ?_⟩
                    replace hg2 : some _ = some g2 := hg2
                    rw [Option.some.injEq] at hg2
                    subst hg2
                    exact ⟨fun _ => by simp [hrest], by simp [hrest]⟩
                  simpa [step, hp] using hred

theorem inv2_run (ops : List Op) :
    ∀ s : PipeState, Inv2 s → noDestroy ops = true → Inv2 (runPipe s ops) := by
  induction ops with
  | nil => intro s h _; exact h
  | cons op ops ih =>
      intro s h hnd
      rw [noDestroy, List.all_cons, Bool.and_eq_true] at hnd
      rw [runPipe_cons]
      refine ih (step s op) (inv2_step s op h ?_) hnd.2
      simpa using hnd.1

/-! ### Helper facts for the claim theorems -/

theorem updateText_keeps_issued_of_generating (s : PipeState) (g : GpuText)
    (h1 : s.inMap = true) (h2 : s.obj = some g) (h4 : g.generatingTexture = true) :
    (updateText s).issued = s.issued ∧ (updateText s).pending = s.pending := by
  by_cases hkey : g.currentKey = s.view.getKey
  · rw [updateText_of_sameKey s g h1 h2 hkey]; exact ⟨rfl, rfl⟩
  · rw [updateText_of_generating s g h1 h2 hkey h4]; exact ⟨rfl, rfl⟩

theorem addRenderable_gate (s : PipeState) (g : GpuText)
    (h1 : s.inMap = true) (h2 : s.obj = some g) (h4 : g.generatingTexture = true) :
    (addRenderable s).issued = s.issued ∧ (addRenderable s).pending = s.pending := by
  rw [addRenderable_of_inMap s g h1 h2]
  cases hd : s.view.didUpdate with
  | false => simp
  | true => simpa using updateText_keeps_issued_of_generating s g h1 h2 h4

theorem updateRenderable_gate (s : PipeState) (g : GpuText)
    (h1 : s.inMap = true) (h2 : s.obj = some g) (h4 : g.generatingTexture = true) :
    (updateRenderable s).issued = s.issued ∧ (updateRenderable s).pending = s.pending := by
  rw [updateRenderable_of_inMap s g h1 h2]
  cases hd : s.view.didUpdate with
  | false => simp
  | true => simpa using updateText_keeps_issued_of_generating s g h1 h2 h4

theorem addRenderable_if_inMap (s : PipeState) (h1 : s.inMap = true) :
    addRenderable s = if s.view.didUpdate then updateText s else s := by
  simp [addRenderable, getGpuText, h1]

theorem updateRenderable_if_inMap (s : PipeState) (h1 : s.inMap = true) :
    updateRenderable s = if s.view.didUpdate then updateText s else s := by
  simp [updateRenderable, getGpuText, h1]

theorem updateText_didUpdate (s : PipeState) :
    (updateText s).view.didUpdate = false := rfl

/-! ### Claim theorems -/

/-- C1 counterexample: the claim fails as stated.  On the trace
`setText a` → `add` (regeneration for key `a:s` issued, sentinel reference
released) → the request rejects → `destroyRenderable`, the destruction
calls `decreaseReferenceCount("a:s")` although no successful
`getManagedTexture` call for `a:s` ever happened: the net reference count
for `a:s` ends at `-1`, an over-release, not the claimed zero. -/
theorem refcountOverReleaseOnFailureTrace :
    (runPipe (initState initView)
      [Op.setText "a" "s", Op.add, Op.complete false, Op.destroyR]).inMap = false ∧
    netCount (TextKey.real "a" "s")
      (runPipe (initState initView)
        [Op.setText "a" "s", Op.add, Op.complete false, Op.destroyR]).refEvents = -1 := by
  exact ⟨by decide, by decide⟩

/-- C1 (amended): restricted to traces in which every `getManagedTexture`
request resolves successfully and the record is destroyed only while no
request is outstanding, the bookkeeping is exact: after every prefix of the
trace the net reference count of each non-sentinel key equals the single
reference the record is entitled to hold (1 exactly when the record is live
in the map, idle, and holds that key; 0 otherwise).  In particular counts
never go negative (no double release), and once the record is destroyed
every key is balanced to zero (no leak). -/
theorem refcountNetBalancedOnSafeTraces (v : TextView) (ops : List Op) (n : Nat)
    (k : TextKey) (hk : k ≠ TextKey.sentinel)
    (hsafe : safeRun (initState v) ops = true) :
    netCount k (runPipe (initState v) (ops.take n)).refEvents
      = expected (runPipe (initState v) (ops.take n)) k :=
  netCount_eq_expected_of_inv _
    (inv_safe_run (ops.take n) _ (inv_initState v) (safeRun_take ops _ n hsafe)) k hk

/-- Witness for C1: a full successful lifecycle (add, successful
regeneration, destroy) is a balanced-safe trace, and the amended theorem
applies to it. -/
theorem refcountNetBalancedOnSafeTracesWitness :
    (TextKey.real "a" "s" ≠ TextKey.sentinel) ∧
    safeRun (initState initView)
      [Op.setText "a" "s", Op.add, Op.complete true, Op.destroyR] = true ∧
    netCount (TextKey.real "a" "s")
      (runPipe (initState initView)
        ([Op.setText "a" "s", Op.add, Op.complete true, Op.destroyR].take 4)).refEvents
      = expected
          (runPipe (initState initView)
            ([Op.setText "a" "s", Op.add, Op.complete true, Op.destroyR].take 4))
          (TextKey.real "a" "s") :=
  ⟨by decide, by decide,
    refcountNetBalancedOnSafeTraces initView
      [Op.setText "a" "s", Op.add, Op.complete true, Op.destroyR] 4
      (TextKey.real "a" "s") (by decide) (by decide)⟩

/-- C2: at most one regeneration request is outstanding per record at any
time.  Along any trace that does not destroy the record, the pending queue
never holds more than one request; moreover, whenever `generatingTexture`
is set, running the update step through `add` or `update` issues no new
`getManagedTexture` request (the issued log and the pending queue are
unchanged). -/
theorem singleFlightGate (v : TextView) (ops : List Op)
    (hnd : noDestroy ops = true) :
    (runPipe (initState v) ops).pending.length ≤ 1 ∧
    (∀ (s : PipeState) (g : GpuText), s.inMap = true → s.obj = some g →
      g.generatingTexture = true →
        (addRenderable s).issued = s.issued ∧
        (addRenderable s).pending = s.pending ∧
        (updateRenderable s).issued = s.issued ∧
        (updateRenderable s).pending = s.pending) := by
  constructor
  · have h2 := inv2_run ops (initState v) (inv2_initState v) hnd
    cases hobj : (runPipe (initState v) ops).obj with
    | none => rw [h2.2.1 hobj]; simp
    | some g => exact (h2.2.2 g hobj).2
  · intro s g h1 h2 h4
    obtain ⟨ha1, ha2⟩ := addRenderable_gate s g h1 h2 h4
    obtain ⟨hb1, hb2⟩ := updateRenderable_gate s g h1 h2 h4
    exact ⟨ha1, ha2, hb1, hb2⟩

/-- Witness for C2: a trace with two content changes, the second arriving
while the first regeneration is still in flight, keeps at most one request
pending. -/
theorem singleFlightGateWitness :
    noDestroy [Op.setText "a" "s", Op.add, Op.setText "b" "s", Op.update] = true ∧
    (runPipe (initState initView)
      [Op.setText "a" "s", Op.add, Op.setText "b" "s", Op.update]).pending.length ≤ 1 :=
  ⟨by decide,
    (singleFlightGate initView
      [Op.setText "a" "s", Op.add, Op.setText "b" "s", Op.update] (by decide)).1⟩

/-- C3 counterexample: the "natural retry" part of the claim is false.
After a rejected regeneration (key `a:s`), a subsequent content change to
key `b:s` runs the update step, but `generatingTexture` was never cleared
on the failure path, so the single-flight gate blocks forever: no new
`getManagedTexture` request is issued (the issued log still holds only the
first request, nothing is pending, and the record is still marked
generating). -/
theorem noNaturalRetryAfterFailure :
    (runPipe (initState initView)
      [Op.setText "a" "s", Op.add, Op.complete false, Op.setText "b" "s",
        Op.update]).issued = [TextKey.real "a" "s"] ∧
    (runPipe (initState initView)
      [Op.setText "a" "s", Op.add, Op.complete false, Op.setText "b" "s",
        Op.update]).pending = [] ∧
    Option.map GpuText.generatingTexture
      (runPipe (initState initView)
        [Op.setText "a" "s", Op.add, Op.complete false, Op.setText "b" "s",
          Op.update]).obj = some true := by
  exact ⟨by decide, by decide, by decide⟩

/-- C3 (amended): when the regeneration request rejects, the `.catch`
handler logs the error and swallows it — the failed completion only pops
the request and bumps the logged-error count, leaving the record object,
the displayed texture, the view, the reference-count log and the pool
untouched, and nothing propagates to callers of add/update.  However the
in-flight flag is never cleared on failure, so a subsequent content/style
change (any new key) does NOT trigger a new regeneration request: the
record is permanently stuck on its last fetched texture. -/
theorem regenerationFailureSwallowedAndStuck (s : PipeState) (k : TextKey)
    (rest : List TextKey) (g : GpuText) (hp : s.pending = k :: rest)
    (hobj : s.obj = some g) (hm : s.inMap = true)
    (hgen : g.generatingTexture = true) :
    step s (Op.complete false)
      = { s with pending := rest, errorsLogged := s.errorsLogged + 1 } ∧
    (∀ t sk : String,
      (addRenderable
        (step (step s (Op.complete false)) (Op.setText t sk))).issued = s.issued ∧
      (updateRenderable
        (step (step s (Op.complete false)) (Op.setText t sk))).issued = s.issued) := by
  have hstep : step s (Op.complete false)
      = { s with pending := rest, errorsLogged := s.errorsLogged + 1 } := by
    simp [step, hp]
  refine ⟨hstep, fun t sk => ?_⟩
  rw [hstep]
  have hm3 : (step { s with pending := rest, errorsLogged := s.errorsLogged + 1 }
      (Op.setText t sk)).inMap = true := hm
  have hobj3 : (step { s with pending := rest, errorsLogged := s.errorsLogged + 1 }
      (Op.setText t sk)).obj = some g := hobj
  exact ⟨(addRenderable_gate _ g hm3 hobj3 hgen).1,
    (updateRenderable_gate _ g hm3 hobj3 hgen).1⟩

/-- Witness for C3: the in-flight state after `setText a; add` has the
request for `a:s` pending; a rejection there is swallowed as described. -/
theorem regenerationFailureSwallowedAndStuckWitness :
    inflightState.pending = [TextKey.real "a" "s"] ∧
    inflightState.obj = some inflightRecord ∧
    inflightState.inMap = true ∧
    inflightRecord.generatingTexture = true ∧
    step inflightState (Op.complete false)
      = { inflightState with pending := [],
                             errorsLogged := inflightState.errorsLogged + 1 } :=
  ⟨by decide, by decide, by decide, by decide,
    (regenerationFailureSwallowedAndStuck inflightState (TextKey.real "a" "s") []
      inflightRecord (by decide) (by decide) (by decide) (by decide)).1⟩

/-- C4: the code does NOT treat completion after destruction as a benign
no-op.  On the trace `setText a; add; destroyRenderable` (mid-flight)
followed by the successful resolution of the request, the map slot is
already null and the batch entry has been returned to the pool
(`poolReturns = 1`), yet the completion writes the new managed texture and
recomputed bounds into that pool-returned batch entry, flags the destroyed
record for upload, and re-marks the destroyed renderable's view as
updated — exactly the writes the claim says must not happen. -/
theorem completionWritesIntoDestroyedRecord :
    (runPipe (initState initView)
      [Op.setText "a" "s", Op.add, Op.destroyR, Op.complete true]).inMap = false ∧
    (runPipe (initState initView)
      [Op.setText "a" "s", Op.add, Op.destroyR, Op.complete true]).poolReturns = 1 ∧
    Option.map (fun g => g.batchableSprite.texture)
      (runPipe (initState initView)
        [Op.setText "a" "s", Op.add, Op.destroyR, Op.complete true]).obj
      = some (Tex.managed (TextKey.real "a" "s")) ∧
    Option.map (fun g => g.batchableSprite.bounds)
      (runPipe (initState initView)
        [Op.setText "a" "s", Op.add, Op.destroyR, Op.complete true]).obj
      = some (QuadBounds.quad (0, 0) (Tex.managed (TextKey.real "a" "s")) 0) ∧
    Option.map GpuText.textureNeedsUploading
      (runPipe (initState initView)
        [Op.setText "a" "s", Op.add, Op.destroyR, Op.complete true]).obj = some true ∧
    (runPipe (initState initView)
      [Op.setText "a" "s", Op.add, Op.destroyR, Op.complete true]).view.didUpdate
      = true := by
  exact ⟨by decide, by decide, by decide, by decide, by decide, by decide⟩

/-- C5 counterexample: a second destruction of the same renderable throws.
After a full lifecycle ending in `destroyRenderable`, the map slot is null,
and invoking `destroyRenderable` again faults on `gpuText.currentKey`
instead of returning without effect. -/
theorem secondDestroyThrowsCounterexample :
    destroyRenderableE (runPipe (initState initView)
      [Op.setText "a" "s", Op.add, Op.complete true, Op.destroyR])
      = Except.error "TypeError: Cannot read properties of null (reading currentKey)" := rfl

/-- C5 (amended): destroying a live renderable releases the pooled batch
entry and decrements the reference count for its current key exactly once
(one `dec` event appended, one pool return, slot nulled); a second
destruction then throws a TypeError on the nulled slot — it does not
decrement again and does not release the pooled entry again (the exception
fires before any mutation, leaving the state unchanged). -/
theorem destroyReleasesOnceThenSecondThrows (s : PipeState) (g : GpuText)
    (hm : s.inMap = true) (hobj : s.obj = some g) :
    destroyRenderableE s = Except.ok
      { s with refEvents := s.refEvents ++ [RefEvent.dec g.currentKey],
               poolReturns := s.poolReturns + 1, inMap := false } ∧
    (∀ s2, destroyRenderableE s = Except.ok s2 →
      destroyRenderableE s2
        = Except.error "TypeError: Cannot read properties of null (reading currentKey)" ∧
      step s2 Op.destroyR = s2) := by
  refine ⟨destroyRenderableE_of_live s g hm hobj, fun s2 h2 => ?_⟩
  rw [destroyRenderableE_of_live s g hm hobj, Except.ok.injEq] at h2
  subst h2
  have hdead := destroyRenderableE_of_dead
    { s with refEvents := s.refEvents ++ [RefEvent.dec g.currentKey],
             poolReturns := s.poolReturns + 1, inMap := false } rfl
  exact ⟨hdead, by simp [step, hdead]⟩

/-- Witness for C5: a freshly initialized record destroyed once releases
its sentinel reference and its pooled sprite. -/
theorem destroyReleasesOnceThenSecondThrowsWitness :
    (initGpuText (initState initView)).inMap = true ∧
    (initGpuText (initState initView)).obj = some initialGpuText ∧
    destroyRenderableE (initGpuText (initState initView)) = Except.ok
      { initGpuText (initState initView) with
          refEvents := (initGpuText (initState initView)).refEvents
            ++ [RefEvent.dec initialGpuText.currentKey],
          poolReturns := (initGpuText (initState initView)).poolReturns + 1,
          inMap := false } :=
  ⟨rfl, rfl,
    (destroyReleasesOnceThenSecondThrows (initGpuText (initState initView))
      initialGpuText rfl rfl).1⟩

/-- C6: for every live record, validate returns true exactly when a
completed regeneration has not yet been consumed (`textureNeedsUploading`)
or the renderable's current key differs from the record's `currentKey`; its
only state effect is clearing `textureNeedsUploading` (a no-op when the
flag was already clear); and after a regeneration completes and no further
key change occurs, validate returns true exactly once and then false. -/
theorem validateSpec (s : PipeState) (g : GpuText)
    (hm : s.inMap = true) (hobj : s.obj = some g) :
    (validateRenderable s).1
        = (g.textureNeedsUploading || decide (g.currentKey ≠ s.view.getKey)) ∧
    (validateRenderable s).2
        = { s with obj := some { g with textureNeedsUploading := false } } ∧
    (g.textureNeedsUploading = true → g.currentKey = s.view.getKey →
      (validateRenderable s).1 = true ∧
      (validateRenderable (validateRenderable s).2).1 = false) := by
  rw [validateRenderable_of_inMap s g hm hobj]
  by_cases htnu : g.textureNeedsUploading
  · simp only [if_pos htnu]
    refine ⟨by simp [htnu], by simp, fun _ hkey => ⟨by simp, ?_⟩⟩
    rw [validateRenderable_of_inMap
      { s with obj := some { g with textureNeedsUploading := false } }
      { g with textureNeedsUploading := false } hm rfl]
    simp [hkey]
  · rw [Bool.not_eq_true] at htnu
    have hg : { g with textureNeedsUploading := false } = g := by
      cases g
      simp only at htnu
      simp [htnu]
    rw [if_neg (by simp [htnu])]
    by_cases hkey : g.currentKey = s.view.getKey
    · rw [if_neg (fun hne => hne hkey)]
      refine ⟨by simp [htnu, hkey], ?_, fun h1 => by rw [htnu] at h1; exact absurd h1 (by simp)⟩
      rw [hg, ← hobj]
    · rw [if_pos hkey]
      refine ⟨by simp [htnu, hkey], ?_, fun h1 => by rw [htnu] at h1; exact absurd h1 (by simp)⟩
      rw [hg, ← hobj]

/-- Witness for C6: validating the record right after a completed
regeneration consumes the upload flag and returns true. -/
theorem validateSpecWitness :
    stableState.inMap = true ∧
    stableState.obj = some stableRecord ∧
    (validateRenderable stableState).1
      = (stableRecord.textureNeedsUploading
          || decide (stableRecord.currentKey ≠ stableState.view.getKey)) :=
  ⟨by decide, by decide,
    (validateSpec stableState stableRecord (by decide) (by decide)).1⟩

/-- C7: after add or update runs the synchronous update step, the batch
entry's quad bounds are recomputed from the texture currently assigned to
the record's batch entry — the texture field itself is untouched by the
synchronous step, so the bounds always pair with the texture already
displayed — using the renderable's anchor and the style's padding, and this
happens whether or not the key changed (no hypothesis on the key). -/
theorem boundsFromCurrentTexture (s : PipeState) (g : GpuText)
    (hm : s.inMap = true) (hobj : s.obj = some g) (hd : s.view.didUpdate = true) :
    Option.map GpuText.batchableSprite (addRenderable s).obj
        = some { g.batchableSprite with bounds :=
            (QuadBounds.quad s.view.anchor g.batchableSprite.texture s.view.padding) } ∧
    Option.map GpuText.batchableSprite (updateRenderable s).obj
        = some { g.batchableSprite with bounds :=
            (QuadBounds.quad s.view.anchor g.batchableSprite.texture s.view.padding) } := by
  have hcore : Option.map GpuText.batchableSprite (updateText s).obj
      = some { g.batchableSprite with bounds :=
          (QuadBounds.quad s.view.anchor g.batchableSprite.texture s.view.padding) } := by
    by_cases hkey : g.currentKey = s.view.getKey
    · rw [updateText_of_sameKey s g hm hobj hkey]; rfl
    · cases hgen : g.generatingTexture with
      | true => rw [updateText_of_generating s g hm hobj hkey hgen]; rfl
      | false => rw [updateText_of_newKey s g hm hobj hkey hgen]; rfl
  rw [addRenderable_of_inMap s g hm hobj, updateRenderable_of_inMap s g hm hobj,
      if_pos hd]
  exact ⟨hcore, hcore⟩

/-- Witness for C7: after a completed regeneration, re-adding the updated
renderable recomputes the bounds from the managed texture already assigned
to the batch entry. -/
theorem boundsFromCurrentTextureWitness :
    stableState.inMap = true ∧
    stableState.obj = some stableRecord ∧
    stableState.view.didUpdate = true ∧
    Option.map GpuText.batchableSprite (addRenderable stableState).obj
      = some { stableRecord.batchableSprite with bounds :=
          (QuadBounds.quad stableState.view.anchor
            stableRecord.batchableSprite.texture stableState.view.padding) } :=
  ⟨by decide, by decide, by decide,
    (boundsFromCurrentTexture stableState stableRecord
      (by decide) (by decide) (by decide)).1⟩

/-- C8: the claim says whole-pipe destroy() completes without fault when
live records are gone, including after individual destructions; the code
does not.  The for-in teardown loop works on an empty map and on live
slots, but `_destroyRenderableById` nulls a slot rather than deleting it,
so after an individual destruction the loop revisits the null slot and
faults reading `currentKey` of null (the teardown throws with zero live
records).  The last conjunct shows an individual destruction indeed leaves
the slot nulled. -/
theorem pipeDestroyFaultsAfterIndividualDestroy :
    pipeDestroy [] = Except.ok [] ∧
    pipeDestroy [(1, some initialGpuText)]
      = Except.ok [RefEvent.dec TextKey.sentinel] ∧
    pipeDestroy [(1, some stableRecord), (2, none)]
      = Except.error "TypeError: Cannot read properties of null (reading currentKey)" ∧
    pipeDestroy [(1, none)]
      = Except.error "TypeError: Cannot read properties of null (reading currentKey)" ∧
    (runPipe (initState initView)
      [Op.setText "a" "s", Op.add, Op.complete true, Op.destroyR]).inMap = false := by
  exact ⟨rfl, rfl, rfl, rfl, by decide⟩

/-- C9: validating a renderable that has never been seen performs the
first-touch initialization — record allocated with the sentinel key, empty
placeholder texture, a freshly pooled batch entry with the zero-area
`[0, 1, 0, 0]` bounds, destruction listener registered — and returns true,
because the sentinel key never equals the renderable's real key. -/
theorem validateFirstTouch (s : PipeState) (hm : s.inMap = false)
    (_hobj : s.obj = none) :
    (validateRenderable s).1 = true ∧
    (validateRenderable s).2 = initGpuText s ∧
    (initGpuText s).obj = some initialGpuText ∧
    (initGpuText s).inMap = true ∧
    (initGpuText s).listenerOn = true ∧
    (initGpuText s).poolGets = s.poolGets + 1 ∧
    initialGpuText.currentKey = TextKey.sentinel ∧
    initialGpuText.texture = Tex.empty ∧
    initialGpuText.batchableSprite.texture = Tex.empty ∧
    initialGpuText.batchableSprite.bounds = QuadBounds.initZero ∧
    s.view.getKey ≠ TextKey.sentinel := by
  rw [validateRenderable_of_fresh s hm]
  exact ⟨rfl, rfl, rfl, rfl, rfl, rfl, rfl, rfl, rfl, rfl, getKey_ne_sentinel s.view⟩

/-- Witness for C9: validating the pristine state initializes the record
and reports the renderable as invalid. -/
theorem validateFirstTouchWitness :
    (initState initView).inMap = false ∧
    (initState initView).obj = none ∧
    (validateRenderable (initState initView)).1 = true :=
  ⟨rfl, rfl, (validateFirstTouch (initState initView) rfl rfl).1⟩

/-- C10: the synchronous update step clears the view's mutation flag
unconditionally, so after any add or update call the renderable's
`_didUpdate` is false — whether or not the record existed, the key changed,
or a regeneration was initiated. -/
theorem updateStepClearsDidUpdate (s : PipeState) :
    (addRenderable s).view.didUpdate = false ∧
    (updateRenderable s).view.didUpdate = false := by
  constructor
  · cases hm : s.inMap with
    | false =>
        rw [addRenderable_of_fresh s hm]
        cases hd : s.view.didUpdate with
        | false => simpa [initGpuText] using hd
        | true => simp [updateText_didUpdate]
    | true =>
        rw [addRenderable_if_inMap s hm]
        cases hd : s.view.didUpdate with
        | false => simpa using hd
        | true => simp [updateText_didUpdate]
  · cases hm : s.inMap with
    | false =>
        rw [updateRenderable_of_fresh s hm]
        cases hd : s.view.didUpdate with
        | false => simpa [initGpuText] using hd
        | true => simp [updateText_didUpdate]
    | true =>
        rw [updateRenderable_if_inMap s hm]
        cases hd : s.view.didUpdate with
        | false => simpa using hd
        | true => simp [updateText_didUpdate]

end HTMLText
